import Mathlib

/-!
Shallow embedding of the typed blob-storage client
(`sdk/storage_blobs/src/base_client.rs`, `blob_client.rs`, `options/mod.rs`)
and proofs of the specification's testable properties.

Modelling conventions:
* Rust `String`/`&str` become Lean `String`; payload bytes (`Bytes`) become
  `List Nat`; `azure_core::Url` is kept as the raw composed string (the only
  URL operations the crate performs are composition and `to_owned`).
* A header set is an association list; `Request::insert_header` replaces the
  value of an existing key and otherwise appends (azure_core headers are a
  map keyed by header name, last write wins).
* The wall clock (`OffsetDateTime::now_utc` formatted by `date::to_rfc1123`)
  enters `upload_blob` as an explicit `now : String` argument.
* Rust panics (`panic!`, and `std::process::exit` in `build_url`) are
  modelled as error values of explicit sum types, so that "the call aborts
  and no request reaches the transport" is visible in the result type.
* The external transport pipeline is out of scope; every operation is
  modelled up to the request descriptor it hands to `pipeline.send`.
  `TokenCredential` and `azure_core::ClientOptions` are opaque to this crate
  and are modelled as opaque tokens (`Nat`).
-/

namespace StorageBlobs

/-- HTTP methods used by the client (`azure_core::Method`). -/
inductive HttpMethod where
  | put
  | get
  | head
deriving DecidableEq

/-- A header set: association list of (name, value). -/
abbrev Headers := List (String × String)

/-- `Request::insert_header`: replace the value under an existing name,
otherwise append the pair (map semantics, last write wins). -/
def insertHeader (hs : Headers) (k v : String) : Headers :=
  if hs.any (fun p => p.1 = k) then
    hs.map (fun p => if p.1 = k then (k, v) else p)
  else
    hs ++ [(k, v)]

/-- Value of header `k` in `hs`, if present. -/
def lookupHeader (hs : Headers) (k : String) : Option String :=
  (hs.find? (fun p => p.1 = k)).map Prod.snd

/-- Number of entries of `hs` whose name is `k`. -/
def countKey (hs : Headers) (k : String) : Nat :=
  (hs.filter (fun p => p.1 = k)).length

/-- The transport-agnostic request descriptor (`azure_core::Request`):
method, target URL, header set, optional byte body. -/
structure Request where
  url : String
  method : HttpMethod
  headers : Headers
  body : Option (List Nat)
deriving DecidableEq

/-- `Request::new(url, method)`: fresh descriptor, no headers, no body. -/
def Request.new (url : String) (method : HttpMethod) : Request :=
  { url := url, method := method, headers := [], body := none }

/-- The external pipeline handle, as built by `build_pipeline` at client
construction: it captures the credential and the `azure_core::ClientOptions`
passed through unopened (both opaque to this crate). -/
structure Pipeline where
  credential : Nat
  client_options : Nat
deriving DecidableEq

/-- `build_pipeline` as invoked from `BlobClient::new`: wraps the credential
in a bearer-token policy and forwards the caller's `ClientOptions` (the
`base_client.rs` trait default takes only the credential and uses default
options; the constructor's call site forwards `options.client_options`). -/
def build_pipeline (credential : Nat) (client_options : Nat) : Pipeline :=
  { credential := credential, client_options := client_options }

/-- Result of `BaseClient::build_url`: either the composed URL string, or
termination of the host process (`std::process::exit(code)`), which the
historical code performs on an invalid service name. -/
inductive BuildUrlResult where
  | ok (url : String)
  | processExit (code : Nat)
deriving DecidableEq

/-- The fixed service allow-list checked by `build_url`. -/
def validServices : List String := ["blob", "queue", "file-share", "dfs"]

/-- `BaseClient::build_url(account_name, service)`: rejects any service not
in the allow-list by printing a message and exiting the process with code 1;
otherwise composes `https://{account}.{service}.core.windows.net/`. -/
def build_url (account_name service : String) : BuildUrlResult :=
  if ¬ validServices.contains service then
    .processExit 1
  else
    .ok ("https://" ++ account_name ++ "." ++ service ++ ".core.windows.net/")

/-- `BaseClient::finalize_request`: insert the fixed protocol-version header
`x-ms-version: 2023-11-03`. -/
def finalize_request (r : Request) : Request :=
  { r with headers := insertHeader r.headers "x-ms-version" "2023-11-03" }

/-- The typestate markers of `crate::units` (`Unset`, `Block`, `Page`,
`Append`, all implementing the sealed `BlobKind` trait — the module itself
sits outside this tree; that `Unset` implements `BlobKind`, so that the
generic `impl<T: BlobKind>` operations apply to it, is witnessed by the
in-crate tests calling `upload_blob` on a `BlobClient<Unset>`). -/
inductive BlobKind where
  | unset
  | block
  | page
  | append
deriving DecidableEq

/-- `BlobClient<T>`: identity triple, credential handle, composed URL,
pipeline handle, and the typestate marker `T`, here a runtime field. -/
structure BlobClient where
  account_name : String
  credential : Nat
  container_name : String
  blob_name : String
  url : String
  pipeline : Pipeline
  kind : BlobKind
deriving DecidableEq

/-- `azure_core::ClientOptions` is opaque to this crate; `BlobClientOptions`
(`options/mod.rs`) carries an optional api version string plus those opaque
client options. -/
structure BlobClientOptions where
  api_version : Option String
  client_options : Nat
deriving DecidableEq

/-- `BlobClientOptions::default()`: api version `"2023-11-03"`, default
client options. -/
def BlobClientOptions.default : BlobClientOptions :=
  { api_version := some "2023-11-03", client_options := 0 }

/-- `BlobClientOptionsBuilder` (`options/mod.rs`). -/
structure BlobClientOptionsBuilder where
  options : BlobClientOptions
deriving DecidableEq

/-- `BlobClientOptions::builder()`. -/
def BlobClientOptions.builder : BlobClientOptionsBuilder :=
  { options := BlobClientOptions.default }

/-- `BlobClientOptionsBuilder::with_api_version`. -/
def BlobClientOptionsBuilder.with_api_version
    (b : BlobClientOptionsBuilder) (api_version : String) :
    BlobClientOptionsBuilder :=
  { b with options := { b.options with api_version := some api_version } }

/-- `BlobClientOptionsBuilder::with_client_options`. -/
def BlobClientOptionsBuilder.with_client_options
    (b : BlobClientOptionsBuilder) (client_options : Nat) :
    BlobClientOptionsBuilder :=
  { b with options := { b.options with client_options := client_options } }

/-- `BlobClientOptionsBuilder::build`. -/
def BlobClientOptionsBuilder.build (b : BlobClientOptionsBuilder) :
    BlobClientOptions :=
  b.options

/-- `BlobClient::<Unset>::build_blob_url`: append container and blob name to
the base URL with literal `/` separators. -/
def build_blob_url (base_url container_name blob_name : String) : String :=
  base_url ++ container_name ++ "/" ++ blob_name

/-- `BlobClient::new`: composes the blob URL from `build_url(account,
"blob")` (the service literal `"blob"` is always in the allow-list, so the
`processExit` branch of `build_url` is dead here) and builds the pipeline
from the credential and the options' `client_options`; the `api_version`
field of the options is not read. The fresh client is in the `Unset`
state. -/
def BlobClient.new (account_name container_name blob_name : String)
    (credential : Nat) (options : Option BlobClientOptions) : BlobClient :=
  let options := options.getD BlobClientOptions.default
  let base_url :=
    match build_url account_name "blob" with
    | .ok u => u
    | .processExit _ => ""
  { account_name := account_name
    credential := credential
    container_name := container_name
    blob_name := blob_name
    url := build_blob_url base_url container_name blob_name
    pipeline := build_pipeline credential options.client_options
    kind := .unset }

/-- `BlobClient::<Unset>::as_block_blob`: consuming transition to `Block`;
every other field is carried over unchanged. -/
def as_block_blob (c : BlobClient) : BlobClient :=
  { c with kind := .block }

/-- `BlobClient::<Unset>::as_append_blob`: consuming transition to `Append`. -/
def as_append_blob (c : BlobClient) : BlobClient :=
  { c with kind := .append }

/-- `BlobClient::<Unset>::as_page_blob`: consuming transition to `Page`. -/
def as_page_blob (c : BlobClient) : BlobClient :=
  { c with kind := .page }

/-- The panics the upload paths can raise: the `Some(_)` arm of
`upload_blob` (`panic!("Unknown blob type specified!")`) and the alignment
check of `upload_page_blob` (`panic!("Data length is not divisible by 512.
Data len:{len}")`, carrying the offending length). A panic unwinds the call
before any request descriptor reaches the pipeline. -/
inductive RustPanic where
  | unknownBlobType
  | invalidPageAlignment (len : Nat)
deriving DecidableEq

/-- `BlobClient::<T>::upload_blob(data, blob_type)` up to the descriptor
handed to `pipeline.send`: a fresh PUT request at the client's URL, headers
chosen by the `blob_type` match (string patterns are compared in source
order), then the `x-ms-date` timestamp header and `finalize_request`.
`.error` models the `panic!` of the unmatched `Some(_)` arm. -/
def upload_blob (c : BlobClient) (data : List Nat) (blob_type : Option String)
    (now : String) : Except RustPanic Request :=
  let request := Request.new c.url .put
  let armed : Except RustPanic Request :=
    match blob_type with
    | some s =>
      if s = "PageBlob" then
        .ok { request with
          headers := insertHeader (insertHeader (insertHeader request.headers
            "x-ms-blob-type" "PageBlob") "content-length" "0")
            "x-ms-blob-content-length" (toString data.length)
          body := some data }
      else if s = "AppendBlob" then
        .ok { request with
          headers := insertHeader (insertHeader request.headers
            "x-ms-blob-type" "AppendBlob") "content-length" "0" }
      else if s = "BlockBlob" then
        .ok { request with
          headers := insertHeader (insertHeader request.headers
            "x-ms-blob-type" "BlockBlob") "content-length"
            (toString data.length)
          body := some data }
      else
        .error .unknownBlobType
    | none =>
      .ok { request with
        headers := insertHeader (insertHeader request.headers
          "x-ms-blob-type" "BlockBlob") "content-length"
          (toString data.length)
        body := some data }
  armed.map (fun r =>
    finalize_request { r with headers := insertHeader r.headers "x-ms-date" now })

/-- `BlobClient::<T>::download_blob` up to the descriptor handed to
`pipeline.send`: a fresh GET request at the client's URL, finalized. -/
def download_blob (c : BlobClient) : Request :=
  finalize_request (Request.new c.url .get)

/-- `BlobClient::<T>::get_blob_properties` up to the descriptor handed to
`pipeline.send`: a fresh HEAD request at the client's URL, finalized. -/
def get_blob_properties (c : BlobClient) : Request :=
  finalize_request (Request.new c.url .head)

/-- `BlobClient::<Block>::upload_block_blob`: delegates to `upload_blob`
with `Some("BlockBlob")`. -/
def upload_block_blob (c : BlobClient) (data : List Nat) (now : String) :
    Except RustPanic Request :=
  upload_blob c data (some "BlockBlob") now

/-- `BlobClient::<Append>::upload_append_blob`: delegates to `upload_blob`
with `Some("AppendBlob")`. -/
def upload_append_blob (c : BlobClient) (data : List Nat) (now : String) :
    Except RustPanic Request :=
  upload_blob c data (some "AppendBlob") now

/-- `BlobClient::<Page>::upload_page_blob`: panics (carrying the offending
length) when the payload length is not divisible by 512, otherwise delegates
to `upload_blob` with `Some("PageBlob")`. -/
def upload_page_blob (c : BlobClient) (data : List Nat) (now : String) :
    Except RustPanic Request :=
  let data_length := data.length
  if data_length % 512 ≠ 0 then
    .error (.invalidPageAlignment data_length)
  else
    upload_blob c data (some "PageBlob") now

/-- The public calls a caller can attempt on a client value, with their
arguments. -/
inductive ClientCall where
  | asBlockBlob
  | asAppendBlob
  | asPageBlob
  | uploadBlob (data : List Nat) (blob_type : Option String) (now : String)
  | downloadBlob
  | getBlobProperties
  | uploadBlockBlob (data : List Nat) (now : String)
  | uploadAppendBlob (data : List Nat) (now : String)
  | uploadPageBlob (data : List Nat) (now : String)
deriving DecidableEq

/-- What a defined call produces: a consuming transition yields the moved-to
client value; an operation yields either the request descriptor handed to
the pipeline or a panic. -/
inductive Outcome where
  | moved (c : BlobClient)
  | built (r : Request)
  | panicked (p : RustPanic)
deriving DecidableEq

/-- View an upload result as an `Outcome`. -/
def outcomeOfUpload : Except RustPanic Request → Outcome
  | .ok r => .built r
  | .error p => .panicked p

/-- Method availability and behavior, read off the `impl` blocks of
`blob_client.rs`: the three `as_*` transitions are defined only on
`BlobClient<Unset>`; `upload_blob`, `download_blob` and
`get_blob_properties` are defined on `BlobClient<T>` for every
`T: BlobKind` (all four markers); `upload_block_blob` / `upload_append_blob`
/ `upload_page_blob` are defined only on the matching concrete kind.
`none` means the call does not exist at that typestate (it would not
compile in the source). -/
def invoke (c : BlobClient) : ClientCall → Option Outcome
  | .asBlockBlob =>
      if c.kind = .unset then some (.moved (as_block_blob c)) else none
  | .asAppendBlob =>
      if c.kind = .unset then some (.moved (as_append_blob c)) else none
  | .asPageBlob =>
      if c.kind = .unset then some (.moved (as_page_blob c)) else none
  | .uploadBlob data blob_type now =>
      some (outcomeOfUpload (upload_blob c data blob_type now))
  | .downloadBlob =>
      some (.built (download_blob c))
  | .getBlobProperties =>
      some (.built (get_blob_properties c))
  | .uploadBlockBlob data now =>
      if c.kind = .block then
        some (outcomeOfUpload (upload_block_blob c data now))
      else none
  | .uploadAppendBlob data now =>
      if c.kind = .append then
        some (outcomeOfUpload (upload_append_blob c data now))
      else none
  | .uploadPageBlob data now =>
      if c.kind = .page then
        some (outcomeOfUpload (upload_page_blob c data now))
      else none

/-- The calls that are consuming kind transitions. -/
def isTransition : ClientCall → Bool
  | .asBlockBlob => true
  | .asAppendBlob => true
  | .asPageBlob => true
  | _ => false

/-- The calls that are operations (upload, download, get-properties) rather
than transitions. -/
def isOperation (call : ClientCall) : Bool :=
  !isTransition call

/-- One step of a client value's lifetime: a successful transition replaces
the value (move semantics: the single evolving state models the one owned
instance); every other call leaves the client untouched. -/
def step (c : BlobClient) (call : ClientCall) : BlobClient :=
  match invoke c call with
  | some (.moved c2) => c2
  | _ => c

/-- A client value's state after a sequence of calls. -/
def run (c : BlobClient) (calls : List ClientCall) : BlobClient :=
  calls.foldl step c

/-- Number of transitions in a call sequence that actually succeed
(are defined at the state they are attempted in). -/
def succTransitions : BlobClient → List ClientCall → Nat
  | _, [] => 0
  | c, call :: rest =>
      (if isTransition call ∧ (invoke c call).isSome then 1 else 0) +
        succTransitions (step c call) rest

/-- The `x-ms-blob-type` kind-marker header of a built request, when the
outcome is a request. -/
def outcomeKindMarker : Outcome → Option String
  | .built r => lookupHeader r.headers "x-ms-blob-type"
  | _ => none

/-- The 11 ASCII bytes of `"hello world"`. -/
def helloWorldBytes : List Nat :=
  [104, 101, 108, 108, 111, 32, 119, 111, 114, 108, 100]

end StorageBlobs

namespace StorageBlobs

/-- The URL composed by `BlobClient::new`:
`https://{account}.blob.core.windows.net/{container}/{blob}`. -/
theorem new_url (account container blob : String) (cred : Nat)
    (opts : Option BlobClientOptions) :
    (BlobClient.new account container blob cred opts).url =
      "https://" ++ account ++ ".blob.core.windows.net/"
        ++ container ++ "/" ++ blob := by
  have h : "https://" ++ account ++ "." ++ "blob" ++ ".core.windows.net/" =
      "https://" ++ account ++ ".blob.core.windows.net/" := by
    rw [String.append_assoc, String.append_assoc]
    rfl
  simp [BlobClient.new, build_url, validServices, build_blob_url]
  rw [h]

/-- Every request descriptor `upload_blob` actually builds carries the
protocol-version header exactly once, with its fixed literal value. -/
theorem upload_blob_ok_version (c : BlobClient) (d : List Nat)
    (bt : Option String) (now : String) (r : Request)
    (h : upload_blob c d bt now = .ok r) :
    countKey r.headers "x-ms-version" = 1 ∧
    lookupHeader r.headers "x-ms-version" = some "2023-11-03" := by
  cases bt with
  | none =>
    simp [upload_blob, Request.new, Except.map, finalize_request] at h
    subst h
    simp [insertHeader, countKey, lookupHeader]
  | some s =>
    by_cases h1 : s = "PageBlob"
    · simp [upload_blob, Request.new, Except.map, finalize_request, h1] at h
      subst h
      simp [insertHeader, countKey, lookupHeader]
    · by_cases h2 : s = "AppendBlob"
      · simp [upload_blob, Request.new, Except.map, finalize_request, h1, h2] at h
        subst h
        simp [insertHeader, countKey, lookupHeader]
      · by_cases h3 : s = "BlockBlob"
        · simp [upload_blob, Request.new, Except.map, finalize_request,
            h1, h2, h3] at h
          subst h
          simp [insertHeader, countKey, lookupHeader]
        · simp [upload_blob, Request.new, Except.map, h1, h2, h3] at h

/-- Calls that are not transitions never change the client value. -/
theorem step_eq_of_not_transition (c : BlobClient) (call : ClientCall)
    (h : isTransition call = false) : step c call = c := by
  cases call with
  | asBlockBlob => simp [isTransition] at h
  | asAppendBlob => simp [isTransition] at h
  | asPageBlob => simp [isTransition] at h
  | uploadBlob d bt now =>
    cases hres : upload_blob c d bt now <;>
      simp [step, invoke, outcomeOfUpload, hres]
  | downloadBlob => simp [step, invoke]
  | getBlobProperties => simp [step, invoke]
  | uploadBlockBlob d now =>
    by_cases hk : c.kind = .block
    · cases hres : upload_block_blob c d now <;>
        simp [step, invoke, hk, outcomeOfUpload, hres]
    · simp [step, invoke, hk]
  | uploadAppendBlob d now =>
    by_cases hk : c.kind = .append
    · cases hres : upload_append_blob c d now <;>
        simp [step, invoke, hk, outcomeOfUpload, hres]
    · simp [step, invoke, hk]
  | uploadPageBlob d now =>
    by_cases hk : c.kind = .page
    · cases hres : upload_page_blob c d now <;>
        simp [step, invoke, hk, outcomeOfUpload, hres]
    · simp [step, invoke, hk]

/-- Transitions are only defined on an `Unset` client. -/
theorem invoke_transition_none (c : BlobClient) (call : ClientCall)
    (hk : c.kind ≠ .unset) (ht : isTransition call = true) :
    invoke c call = none := by
  cases call <;> simp_all [invoke, isTransition]

/-- From a client of concrete kind no transition ever succeeds again. -/
theorem succTransitions_zero (c : BlobClient) (calls : List ClientCall)
    (hk : c.kind ≠ .unset) : succTransitions c calls = 0 := by
  induction calls generalizing c with
  | nil => rfl
  | cons call rest ih =>
    by_cases ht : isTransition call = true
    · have hnone := invoke_transition_none c call hk ht
      have hstep : step c call = c := by simp [step, hnone]
      simp [succTransitions, hnone, hstep, ih c hk]
    · have hstep := step_eq_of_not_transition c call (by simpa using ht)
      simp [succTransitions, ht, hstep, ih c hk]

/-- A successful transition leaves the `Unset` state for good. -/
theorem transition_kind_ne_unset (c : BlobClient) (call : ClientCall)
    (hk : c.kind = .unset) (ht : isTransition call = true) :
    (step c call).kind ≠ .unset := by
  cases call <;>
    simp_all [step, invoke, isTransition, as_block_blob, as_append_blob,
      as_page_blob]

/-- Over any call sequence, at most one transition ever succeeds. -/
theorem succTransitions_le_one (c : BlobClient) (calls : List ClientCall) :
    succTransitions c calls ≤ 1 := by
  induction calls generalizing c with
  | nil => simp [succTransitions]
  | cons call rest ih =>
    by_cases ht : isTransition call = true
    · by_cases hk : c.kind = .unset
      · have h0 := succTransitions_zero (step c call) rest
          (transition_kind_ne_unset c call hk ht)
        simp only [succTransitions, h0, Nat.add_zero]
        split <;> simp
      · have hnone := invoke_transition_none c call hk ht
        have hstep : step c call = c := by simp [step, hnone]
        simp [succTransitions, hnone, hstep, ih c]
    · have hstep := step_eq_of_not_transition c call (by simpa using ht)
      simp [succTransitions, ht, hstep, ih c]

end StorageBlobs

namespace StorageBlobs

/-- Claim C1 (code_bug evidence): `build_url` rejects every service outside
{blob, queue, file-share, dfs}, but by terminating the host process
(`std::process::exit(1)`), not by returning a recoverable ConfigurationError
value as the claim requires; for every allowed service it returns
`https://{account}.{service}.core.windows.net/`. -/
theorem C1_build_url_invalid_service_exits_process (account s : String) :
    (s ∉ validServices → build_url account s = .processExit 1) ∧
    (s ∈ validServices →
      build_url account s =
        .ok ("https://" ++ account ++ "." ++ s ++ ".core.windows.net/")) := by
  constructor
  · intro h
    simp [build_url, h]
  · intro h
    simp [build_url, h]

theorem C1_build_url_invalid_service_exits_process_witness :
    ("table" ∉ validServices ∧ build_url "acct" "table" = .processExit 1) ∧
    ("blob" ∈ validServices ∧
      build_url "acct" "blob" = .ok "https://acct.blob.core.windows.net/") := by
  refine ⟨⟨by decide, (C1_build_url_invalid_service_exits_process "acct" "table").1 (by decide)⟩,
    ⟨by decide, ((C1_build_url_invalid_service_exits_process "acct" "blob").2 (by decide)).trans (by decide)⟩⟩

/-- Claim C2, counterexample: a `BlobClient` fresh from `BlobClient::new` is
in the `Unset` (Undetermined) state, yet invoking the generic `upload_blob`
with `Some("PageBlob")` on it is defined (the method lives in
`impl<T: BlobKind>` and `Unset` implements `BlobKind`) and performs a
Page-kind upload: the built descriptor carries the `PageBlob` kind-marker
header. So a kind-specific upload is reachable from the Undetermined state,
refuting the claim as stated (the crate's own `test_upload_blob` exercises
exactly this path with `BlockBlob`). -/
theorem C2_kind_specific_upload_invocable_on_unset :
    (BlobClient.new "acct" "c1" "b.txt" 0 none).kind = BlobKind.unset ∧
    ((invoke (BlobClient.new "acct" "c1" "b.txt" 0 none)
        (.uploadBlob [1] (some "PageBlob") "Tue, 01 Oct 2026 00:00:00 GMT")).map
      outcomeKindMarker) = some (some "PageBlob") :=
  ⟨rfl, rfl⟩

/-- Claim C2, amended: each of the three transitions is defined exactly on
an `Unset` client and yields a client of the corresponding concrete kind;
over any call sequence at most one transition ever succeeds per client
instance; and the three dedicated kind-specific entry points
(`upload_block_blob`, `upload_append_blob`, `upload_page_blob`) are not
invocable on an `Unset` client — though the generic `upload_blob` is. -/
theorem C2_typestate_transition_discipline (c : BlobClient) (d : List Nat) (now : String)
    (calls : List ClientCall) :
    ((invoke c .asBlockBlob).isSome ↔ c.kind = .unset) ∧
    ((invoke c .asAppendBlob).isSome ↔ c.kind = .unset) ∧
    ((invoke c .asPageBlob).isSome ↔ c.kind = .unset) ∧
    (as_block_blob c).kind = .block ∧
    (as_append_blob c).kind = .append ∧
    (as_page_blob c).kind = .page ∧
    succTransitions c calls ≤ 1 ∧
    (c.kind = .unset →
      invoke c (.uploadBlockBlob d now) = none ∧
      invoke c (.uploadAppendBlob d now) = none ∧
      invoke c (.uploadPageBlob d now) = none) := by
  refine ⟨?_, ?_, ?_, rfl, rfl, rfl, succTransitions_le_one c calls, ?_⟩
  · by_cases hk : c.kind = .unset <;> simp [invoke, hk]
  · by_cases hk : c.kind = .unset <;> simp [invoke, hk]
  · by_cases hk : c.kind = .unset <;> simp [invoke, hk]
  · intro hk
    refine ⟨?_, ?_, ?_⟩ <;> simp [invoke, hk]

/-- Witness for C2's amended theorem at a concrete client and call list. -/
theorem C2_typestate_transition_discipline_witness :
    succTransitions (BlobClient.new "a" "c" "b" 0 none)
        [.asBlockBlob, .asPageBlob, .uploadBlob [] none "t"] ≤ 1 ∧
    invoke (BlobClient.new "a" "c" "b" 0 none) (.uploadPageBlob [] "t") = none := by
  have h := C2_typestate_transition_discipline (BlobClient.new "a" "c" "b" 0 none) [] "t"
    [.asBlockBlob, .asPageBlob, .uploadBlob [] none "t"]
  exact ⟨h.2.2.2.2.2.2.1, (h.2.2.2.2.2.2.2 rfl).2.2⟩

/-- Claim C3: Page-kind upload validation succeeds iff the payload length is
a multiple of 512; on any other length the call aborts with a panic carrying
the offending length, before any request descriptor is produced. -/
theorem C3_page_alignment_validation (c : BlobClient) (d : List Nat) (now : String) :
    ((upload_page_blob c d now).isOk ↔ d.length % 512 = 0) ∧
    (d.length % 512 ≠ 0 →
      upload_page_blob c d now = .error (.invalidPageAlignment d.length)) := by
  by_cases h : d.length % 512 = 0
  · refine ⟨?_, fun hn => absurd h hn⟩
    simp [upload_page_blob, h, upload_blob, Except.map, Except.isOk, Except.toBool]
  · refine ⟨?_, fun _ => ?_⟩ <;>
      simp [upload_page_blob, h, Except.isOk, Except.toBool]

/-- Witness for C3 at lengths 511 (failure carrying 511), 0 and 512
(success). -/
theorem C3_page_alignment_validation_witness :
    (upload_page_blob (BlobClient.new "a" "c" "b" 0 none) (List.replicate 511 0) "t"
      = .error (.invalidPageAlignment 511)) ∧
    (upload_page_blob (BlobClient.new "a" "c" "b" 0 none) [] "t").isOk = true ∧
    (upload_page_blob (BlobClient.new "a" "c" "b" 0 none)
      (List.replicate 512 0) "t").isOk = true := by
  refine ⟨?_, ?_, ?_⟩
  · have h := (C3_page_alignment_validation (BlobClient.new "a" "c" "b" 0 none) (List.replicate 511 0) "t").2
      (by simp only [List.length_replicate]; decide)
    simpa only [List.length_replicate] using h
  · exact ((C3_page_alignment_validation (BlobClient.new "a" "c" "b" 0 none) [] "t").1).mpr (by decide)
  · exact ((C3_page_alignment_validation (BlobClient.new "a" "c" "b" 0 none) (List.replicate 512 0) "t").1).mpr
      (by simp only [List.length_replicate])

/-- Claim C4: every Page-kind upload that passes alignment validation builds
a descriptor with the `content-length` header set to the literal "0", the
`x-ms-blob-content-length` header set to the payload's true byte length, and
the full payload attached as the body. -/
theorem C4_page_upload_header_inconsistency (c : BlobClient) (d : List Nat) (now : String)
    (h : d.length % 512 = 0) :
    ∃ r, upload_page_blob c d now = .ok r ∧
      lookupHeader r.headers "content-length" = some "0" ∧
      lookupHeader r.headers "x-ms-blob-content-length" = some (toString d.length) ∧
      r.body = some d := by
  have he : upload_page_blob c d now = .ok (finalize_request
      { url := c.url, method := .put,
        headers := insertHeader (insertHeader (insertHeader (insertHeader []
          "x-ms-blob-type" "PageBlob") "content-length" "0")
          "x-ms-blob-content-length" (toString d.length)) "x-ms-date" now,
        body := some d }) := by
    simp [upload_page_blob, h, upload_blob, Except.map, Request.new]
  refine ⟨_, he, ?_, ?_, ?_⟩
  · simp [finalize_request, insertHeader, lookupHeader]
  · simp [finalize_request, insertHeader, lookupHeader]
  · simp [finalize_request, insertHeader]

/-- Witness for C4 at the empty (0-byte, aligned) payload. -/
theorem C4_page_upload_header_inconsistency_witness :
    ([] : List Nat).length % 512 = 0 ∧
    ∃ r, upload_page_blob (BlobClient.new "a" "c" "b" 0 none) [] "t" = .ok r ∧
      lookupHeader r.headers "content-length" = some "0" ∧
      lookupHeader r.headers "x-ms-blob-content-length"
        = some (toString ([] : List Nat).length) ∧
      r.body = some ([] : List Nat) :=
  ⟨by decide, C4_page_upload_header_inconsistency (BlobClient.new "a" "c" "b" 0 none) [] "t" (by decide)⟩

/-- Claim C5: an Append-kind upload builds the same descriptor for every
payload (the input is ignored): `content-length` "0", kind marker
`AppendBlob`, and no body. -/
theorem C5_append_upload_ignores_payload (c : BlobClient) (d1 d2 : List Nat) (now : String) :
    upload_append_blob c d1 now = upload_append_blob c d2 now ∧
    ∃ r, upload_append_blob c d1 now = .ok r ∧
      lookupHeader r.headers "content-length" = some "0" ∧
      lookupHeader r.headers "x-ms-blob-type" = some "AppendBlob" ∧
      r.body = none := by
  have he : ∀ d : List Nat, upload_append_blob c d now = .ok (finalize_request
      { url := c.url, method := .put,
        headers := insertHeader (insertHeader (insertHeader []
          "x-ms-blob-type" "AppendBlob") "content-length" "0") "x-ms-date" now,
        body := none }) := by
    intro d
    simp [upload_append_blob, upload_blob, Except.map, Request.new]
  refine ⟨(he d1).trans (he d2).symm, _, he d1, ?_, ?_, ?_⟩
  · simp [finalize_request, insertHeader, lookupHeader]
  · simp [finalize_request, insertHeader, lookupHeader]
  · simp [finalize_request, insertHeader]

/-- Claim C6: a Block-kind upload builds a PUT descriptor at
`https://{account}.blob.core.windows.net/{container}/{blob}` with
`content-length` equal to the decimal payload length, kind marker
`BlockBlob`, and the exact payload as body; concretely, for
account "acct", container "c1", blob "b.txt" and the 11-byte payload
"hello world" the URL is `https://acct.blob.core.windows.net/c1/b.txt`
and `content-length` is "11". -/
theorem C6_block_upload_descriptor (account container blob : String) (cred : Nat)
    (opts : Option BlobClientOptions) (d : List Nat) (now : String) :
    (∃ r, upload_block_blob (BlobClient.new account container blob cred opts) d now
        = .ok r ∧
      r.method = .put ∧
      r.url = "https://" ++ account ++ ".blob.core.windows.net/"
        ++ container ++ "/" ++ blob ∧
      lookupHeader r.headers "content-length" = some (toString d.length) ∧
      lookupHeader r.headers "x-ms-blob-type" = some "BlockBlob" ∧
      r.body = some d) ∧
    (upload_block_blob (BlobClient.new "acct" "c1" "b.txt" 0 none)
        helloWorldBytes now).map
      (fun r => (r.url, lookupHeader r.headers "content-length")) =
      .ok ("https://acct.blob.core.windows.net/c1/b.txt", some "11") := by
  constructor
  · have he : upload_block_blob (BlobClient.new account container blob cred opts) d now
        = .ok (finalize_request
        { url := (BlobClient.new account container blob cred opts).url,
          method := .put,
          headers := insertHeader (insertHeader (insertHeader []
            "x-ms-blob-type" "BlockBlob") "content-length" (toString d.length))
            "x-ms-date" now,
          body := some d }) := by
      simp [upload_block_blob, upload_blob, Except.map, Request.new]
    refine ⟨_, he, rfl, ?_, ?_, ?_, ?_⟩
    · show (BlobClient.new account container blob cred opts).url = _
      exact new_url account container blob cred opts
    · simp [finalize_request, insertHeader, lookupHeader]
    · simp [finalize_request, insertHeader, lookupHeader]
    · simp [finalize_request, insertHeader]
  · rfl

/-- Claim C7: every request descriptor any operation hands to the transport
carries the protocol-version header `x-ms-version` exactly once, with the
fixed literal value "2023-11-03". -/
theorem C7_version_header_exactly_once (c : BlobClient) (call : ClientCall) (r : Request)
    (h : invoke c call = some (.built r)) :
    countKey r.headers "x-ms-version" = 1 ∧
    lookupHeader r.headers "x-ms-version" = some "2023-11-03" := by
  cases call with
  | asBlockBlob => by_cases hk : c.kind = .unset <;> simp [invoke, hk] at h
  | asAppendBlob => by_cases hk : c.kind = .unset <;> simp [invoke, hk] at h
  | asPageBlob => by_cases hk : c.kind = .unset <;> simp [invoke, hk] at h
  | uploadBlob d bt now =>
    cases hres : upload_blob c d bt now with
    | ok r2 =>
      simp [invoke, outcomeOfUpload, hres] at h
      subst h
      exact upload_blob_ok_version c d bt now r2 hres
    | error p => simp [invoke, outcomeOfUpload, hres] at h
  | downloadBlob =>
    simp [invoke] at h
    subst h
    simp [download_blob, finalize_request, Request.new, insertHeader,
      countKey, lookupHeader]
  | getBlobProperties =>
    simp [invoke] at h
    subst h
    simp [get_blob_properties, finalize_request, Request.new, insertHeader,
      countKey, lookupHeader]
  | uploadBlockBlob d now =>
    by_cases hk : c.kind = .block
    · cases hres : upload_block_blob c d now with
      | ok r2 =>
        simp [invoke, hk, outcomeOfUpload, hres] at h
        subst h
        exact upload_blob_ok_version c d (some "BlockBlob") now r2 hres
      | error p => simp [invoke, hk, outcomeOfUpload, hres] at h
    · simp [invoke, hk] at h
  | uploadAppendBlob d now =>
    by_cases hk : c.kind = .append
    · cases hres : upload_append_blob c d now with
      | ok r2 =>
        simp [invoke, hk, outcomeOfUpload, hres] at h
        subst h
        exact upload_blob_ok_version c d (some "AppendBlob") now r2 hres
      | error p => simp [invoke, hk, outcomeOfUpload, hres] at h
    · simp [invoke, hk] at h
  | uploadPageBlob d now =>
    by_cases hk : c.kind = .page
    · cases hres : upload_page_blob c d now with
      | ok r2 =>
        simp [invoke, hk, outcomeOfUpload, hres] at h
        subst h
        by_cases ha : d.length % 512 = 0
        · rw [upload_page_blob, if_neg (by simp [ha])] at hres
          exact upload_blob_ok_version c d (some "PageBlob") now r2 hres
        · rw [upload_page_blob, if_pos (by simp [ha])] at hres
          exact absurd hres (by simp)
      | error p => simp [invoke, hk, outcomeOfUpload, hres] at h
    · simp [invoke, hk] at h

/-- Witness for C7 at a concrete client's download request. -/
theorem C7_version_header_exactly_once_witness :
    countKey (download_blob (BlobClient.new "a" "c" "b" 0 none)).headers
      "x-ms-version" = 1 ∧
    lookupHeader (download_blob (BlobClient.new "a" "c" "b" 0 none)).headers
      "x-ms-version" = some "2023-11-03" :=
  C7_version_header_exactly_once (BlobClient.new "a" "c" "b" 0 none) .downloadBlob _ rfl

/-- Claim C8: no operation call (upload, download, get-properties) mutates
any client field: after any sequence of operations the client equals the
client at construction. -/
theorem C8_no_client_mutation (c : BlobClient) (calls : List ClientCall)
    (h : ∀ call ∈ calls, isOperation call = true) : run c calls = c := by
  induction calls generalizing c with
  | nil => rfl
  | cons call rest ih =>
    have hop := h call (List.mem_cons_self call rest)
    have hnt : isTransition call = false := by
      simpa [isOperation] using hop
    have hstep := step_eq_of_not_transition c call hnt
    simp only [run, List.foldl_cons] at *
    rw [hstep]
    exact ih c (fun x hx => h x (List.mem_cons_of_mem call hx))

/-- Witness for C8 over a concrete mixed sequence of operations. -/
theorem C8_no_client_mutation_witness :
    run (BlobClient.new "a" "c" "b" 0 none)
        [.downloadBlob, .uploadBlob [1, 2] none "t", .getBlobProperties,
          .uploadBlob [] (some "Nope") "t", .uploadBlob [3] (some "PageBlob") "t"]
      = BlobClient.new "a" "c" "b" 0 none :=
  C8_no_client_mutation (BlobClient.new "a" "c" "b" 0 none) _ (by decide)

/-- Claim C9: for every blob-type string outside
{BlockBlob, PageBlob, AppendBlob}, `upload_blob` aborts with the
"Unknown blob type specified!" panic and no request descriptor reaches the
transport: the string-typed entry point is not total. -/
theorem C9_unknown_blob_type_panic_aborts_upload (c : BlobClient) (d : List Nat) (s now : String)
    (h : s ∉ ["PageBlob", "AppendBlob", "BlockBlob"]) :
    upload_blob c d (some s) now = .error .unknownBlobType ∧
    invoke c (.uploadBlob d (some s) now) = some (.panicked .unknownBlobType) := by
  have h1 : ¬ s = "PageBlob" := fun e => h (by simp [e])
  have h2 : ¬ s = "AppendBlob" := fun e => h (by simp [e])
  have h3 : ¬ s = "BlockBlob" := fun e => h (by simp [e])
  constructor
  · simp [upload_blob, h1, h2, h3, Except.map]
  · simp [invoke, outcomeOfUpload, upload_blob, h1, h2, h3, Except.map]

/-- Witness for C9 at the unknown blob type "Foo". -/
theorem C9_unknown_blob_type_panic_aborts_upload_witness :
    ("Foo" : String) ∉ ["PageBlob", "AppendBlob", "BlockBlob"] ∧
    upload_blob (BlobClient.new "a" "c" "b" 0 none) [1, 2] (some "Foo") "t"
      = .error .unknownBlobType :=
  ⟨by decide,
    (C9_unknown_blob_type_panic_aborts_upload (BlobClient.new "a" "c" "b" 0 none) [1, 2] "Foo" "t" (by decide)).1⟩

/-- Claim C10: `upload_blob` with `None` builds exactly the descriptor of
`Some("BlockBlob")`; and the `api_version` field of `BlobClientOptions`
(including a value set via `with_api_version`) is never read by any
request-building path — clients built from options differing only in
`api_version` are identical, so every invocation behaves identically. -/
theorem C10_none_defaults_block_and_api_version_unread (c : BlobClient) (d : List Nat) (now : String)
    (account container blob : String) (cred : Nat)
    (opts : BlobClientOptions) (v : String) (call : ClientCall) :
    upload_blob c d none now = upload_blob c d (some "BlockBlob") now ∧
    BlobClient.new account container blob cred
        (some (BlobClientOptionsBuilder.build
          (BlobClientOptionsBuilder.with_api_version ⟨opts⟩ v))) =
      BlobClient.new account container blob cred (some opts) ∧
    invoke (BlobClient.new account container blob cred
        (some (BlobClientOptionsBuilder.build
          (BlobClientOptionsBuilder.with_api_version ⟨opts⟩ v)))) call =
      invoke (BlobClient.new account container blob cred (some opts)) call := by
  refine ⟨?_, rfl, rfl⟩
  simp [upload_blob]

end StorageBlobs
